import Mathlib

/-!
Verification of the google-photos-sync Google Photos API client layer.

Python values that can appear in request/response mappings are modelled by
the mutually inductive types `PyVal` / `Fields` / `PyList`.  A Python object
is represented by its `__dict__`: an association list of snake_case field
names and values, in assignment order (`Fields`).  A JSON mapping passed to
a constructor is a `PyVal.dict`.  Fallible Python code (raised exceptions:
`GooglePhotosAPIError`, `TypeError`, `KeyError`, `AttributeError`,
`ValueError`) is modelled with `Except String`.
-/

mutual
inductive PyVal where
  | none
  | str (s : String)
  | int (n : Int)
  | float (lit : String)
  | bool (b : Bool)
  | enum (tok : String)
  | list (xs : PyList)
  | dict (kvs : Fields)
  | obj (fields : Fields)

inductive Fields where
  | nil
  | cons (k : String) (v : PyVal) (rest : Fields)

inductive PyList where
  | nil
  | cons (v : PyVal) (rest : PyList)
end

/-- First-match lookup in an association list; models both `d.get(key)` on a
Python dict and attribute lookup on an object `__dict__`. -/
def dictGet : Fields → String → Option PyVal
  | .nil, _ => Option.none
  | .cons k v rest, key => if k = key then Option.some v else dictGet rest key

def errKey : String := "KeyError"

/-- Models Python subscript access `d[key]`, raising `KeyError` when the key
is absent. -/
def dictGetReq (d : Fields) (key : String) : Except String PyVal :=
  match dictGet d key with
  | Option.some v => .ok v
  | Option.none => .error errKey

def Fields.isNil : Fields → Bool
  | .nil => true
  | .cons _ _ _ => false

def PyList.isNil : PyList → Bool
  | .nil => true
  | .cons _ _ => false

def PyVal.isNone : PyVal → Bool
  | .none => true
  | _ => false

/-- Python truthiness of a value (`if value:`): `None`, empty strings, zero
numbers, empty containers and `False` are falsy; every other value, in
particular every object and every enum member, is truthy. -/
def truthy : PyVal → Bool
  | .none => false
  | .str s => !s.isEmpty
  | .int n => !(n == 0)
  | .float lit => !(lit == "0") && !(lit == "0.0")
  | .bool b => b
  | .enum _ => true
  | .list xs => !xs.isNil
  | .dict kvs => !kvs.isNil
  | .obj _ => true

/-- Truthiness of the result of `d.get(key)`: an absent key yields `None`,
which is falsy. -/
def truthyO : Option PyVal → Bool
  | Option.none => false
  | Option.some v => truthy v

def errAttr : String := "AttributeError"

/-- Models treating a value as a mapping (calling `.get` / subscripting it
inside a nested constructor); a non-dict raises `AttributeError`. -/
def asDict : PyVal → Except String Fields
  | .dict kvs => .ok kvs
  | _ => .error errAttr

/-- Models the Python builtin `str` for the value shapes the client feeds it.
Containers never reach `str` on any path relevant to the claims, so their
printed form is a fixed placeholder. -/
def pyStr : PyVal → String
  | .str s => s
  | .int n => toString n
  | .bool b => if b then "True" else "False"
  | .none => "None"
  | .float lit => lit
  | .enum tok => tok
  | .list _ => "<list>"
  | .dict _ => "<dict>"
  | .obj _ => "<object>"

def errValueInt : String := "ValueError: invalid literal for int"
def errTypeInt : String := "TypeError: int argument"

/-- Models the Python builtin `int` on the shapes the client feeds it;
truncation of floats is not exercised by any claim and is modelled as an
error. -/
def pyInt : PyVal → Except String Int
  | .int n => .ok n
  | .bool b => .ok (if b then 1 else 0)
  | .str s =>
    match s.toInt? with
    | Option.some n => .ok n
    | Option.none => .error errValueInt
  | _ => .error errTypeInt

def errTypeFloat : String := "TypeError: float argument"

/-- Models the Python builtin `float` on the shapes the client feeds it.
String inputs are assumed to be numeric literals (invalid literals would
raise in Python; no claim exercises them). -/
def pyFloat : PyVal → Except String PyVal
  | .float lit => .ok (.float lit)
  | .int n => .ok (.float (toString n))
  | .bool b => .ok (.float (if b then "1.0" else "0.0"))
  | .str s => .ok (.float s)
  | _ => .error errTypeFloat

/-- Models the idiom `str(x) if x else None` applied to `x = d.get(key)`. -/
def strIfTruthy : Option PyVal → PyVal
  | Option.some v => if truthy v then .str (pyStr v) else .none
  | Option.none => .none

/-- Models the idiom `float(x) if x else None` applied to `x = d.get(key)`. -/
def floatIfTruthy : Option PyVal → Except String PyVal
  | Option.some v => if truthy v then pyFloat v else .ok .none
  | Option.none => .ok .none

/-- Models the idiom `int(x) if x else None` applied to `x = d.get(key)`. -/
def intIfTruthy : Option PyVal → Except String PyVal
  | Option.some v => if truthy v then (pyInt v).map .int else .ok .none
  | Option.none => .ok .none

/-- Python `str.split` on `'_'`: accumulates the current word and starts a
new word at each underscore; empty words are kept. -/
def splitSnakeAux (cur : List Char) : List Char → List (List Char)
  | [] => [cur.reverse]
  | c :: cs => if c = '_' then cur.reverse :: splitSnakeAux [] cs else splitSnakeAux (c :: cur) cs

/-- Python `str.capitalize`: first character uppercased, the rest
lowercased. -/
def pyCapitalize : List Char → List Char
  | [] => []
  | c :: cs => c.toUpper :: cs.map Char.toLower

/-- types/serializers.py `snake_case_to_camel_case`: split on underscores,
keep the first word, capitalize and append the remaining words. -/
def snake_case_to_camel_case (s : String) : String :=
  match splitSnakeAux [] s.data with
  | [] => ""
  | w :: ws => String.mk (w ++ (ws.map pyCapitalize).flatten)

mutual
/-- The per-field branch of the loop body of types/serializers.py `to_dict`:
values whose exact type is in `JSON_DATA_TYPES = [str, int, float, None,
list, tuple, dict]` are stored unchanged; `Enum` members are stored as their
`value`; every other value is recursed into via its `__dict__`.  `bool` is
not in `JSON_DATA_TYPES` (the membership test uses the exact `type`, and
`bool` is a distinct type from `int` there) and is not an `Enum`, so a
boolean falls into the recursion branch, where accessing `__dict__` on a
`bool` raises `AttributeError`. -/
def serializeValue : PyVal → Except String PyVal
  | .str s => .ok (.str s)
  | .int n => .ok (.int n)
  | .float lit => .ok (.float lit)
  | .list xs => .ok (.list xs)
  | .dict kvs => .ok (.dict kvs)
  | .enum tok => .ok (.str tok)
  | .obj fields => (to_dict fields).map .dict
  | .bool _ => .error errAttr
  | .none => .ok .none

/-- types/serializers.py `to_dict`: iterate the object `__dict__` in order,
skip `None` values, camel-case every stored key, and convert each remaining
value with the loop body modelled by `serializeValue`.  The function is pure
by construction: it performs no I/O and no validation and does not modify
its argument. -/
def to_dict : Fields → Except String Fields
  | .nil => .ok .nil
  | .cons k v rest =>
    match v with
    | .none => to_dict rest
    | _ =>
      match serializeValue v with
      | .error e => .error e
      | .ok v2 =>
        match to_dict rest with
        | .error e => .error e
        | .ok rest2 => .ok (.cons (snake_case_to_camel_case k) v2 rest2)
end

/-- Models the idiom `F(x) if x else None` for a nested record constructor
`F`, applied to `x = d.get(key)` (`raw`): a falsy or absent value yields
`None`; otherwise the value is treated as a mapping and the nested
constructor runs, its exception propagating. -/
def initSub (f : Fields → Except String Fields) (raw : Option PyVal) : Except String PyVal :=
  if truthyO raw then
    match raw with
    | Option.some v =>
      match asDict v with
      | .error e => .error e
      | .ok vd =>
        match f vd with
        | .error e => .error e
        | .ok o => .ok (.obj o)
    | Option.none => .ok .none
  else .ok .none

def errExposure : String := "TypeError: Photo: exposure time duration string must end with letter s for second"

/-- types/media_item.py `Photo.__init__`. -/
def Photo.init (d : Fields) : Except String Fields := do
  let camera_make := strIfTruthy (dictGet d "cameraMake")
  let camera_model := strIfTruthy (dictGet d "cameraModel")
  let focal_length ← floatIfTruthy (dictGet d "focalLength")
  let aperture_f_number ← floatIfTruthy (dictGet d "apertureFNumber")
  let iso_equivalent ← intIfTruthy (dictGet d "isoEquivalent")
  let exposure_time := strIfTruthy (dictGet d "exposureTime")
  if truthy exposure_time && !((pyStr exposure_time).endsWith "s") then
    throw errExposure
  return .cons "camera_make" camera_make (.cons "camera_model" camera_model
    (.cons "focal_length" focal_length (.cons "aperture_f_number" aperture_f_number
    (.cons "iso_equivalent" iso_equivalent (.cons "exposure_time" exposure_time .nil)))))

def errVideoStatus : String := "ValueError: not a valid VideoProcessingStatus"

/-- types/media_item.py `VideoProcessingStatus(value)`: enum lookup by value,
raising `ValueError` on an unknown token. -/
def VideoProcessingStatus.ofValue (v : PyVal) : Except String PyVal :=
  match v with
  | .str s =>
    if s == "UNSPECIFIED" || s == "PROCESSING" || s == "READY" || s == "FAILED"
    then .ok (.enum s) else .error errVideoStatus
  | _ => .error errVideoStatus

/-- types/media_item.py `Video.__init__`. -/
def Video.init (d : Fields) : Except String Fields := do
  let camera_make := strIfTruthy (dictGet d "cameraMake")
  let camera_model := strIfTruthy (dictGet d "cameraModel")
  let fps ← floatIfTruthy (dictGet d "fps")
  let status ← match dictGet d "status" with
    | Option.some v => if truthy v then VideoProcessingStatus.ofValue v else pure PyVal.none
    | Option.none => pure PyVal.none
  return .cons "camera_make" camera_make (.cons "camera_model" camera_model
    (.cons "fps" fps (.cons "status" status .nil)))

def errMetadataUnion : String := "TypeError: MediaMetadata: either photo or video attribute need to be specified"

/-- types/media_item.py `MediaMetadata.__init__`: `creation_time`, `width`
and `height` come from required keys; `self.photo` is built from the
optional `photo` key; the `video` key is consulted, and the attribute
`self.video` assigned, only when `self.photo` is `None` (so when a photo is
present the returned `__dict__` has no `video` entry at all); finally the
constructor raises when both alternatives are `None`. -/
def MediaMetadata.init (d : Fields) : Except String Fields :=
  match dictGetReq d "creationTime" with
  | .error e => .error e
  | .ok ctv =>
    match dictGetReq d "width" with
    | .error e => .error e
    | .ok wv =>
      match dictGetReq d "height" with
      | .error e => .error e
      | .ok hv =>
        match initSub Photo.init (dictGet d "photo") with
        | .error e => .error e
        | .ok photo =>
          if photo.isNone then
            match initSub Video.init (dictGet d "video") with
            | .error e => .error e
            | .ok video =>
              if video.isNone then .error errMetadataUnion
              else .ok (.cons "creation_time" (.str (pyStr ctv)) (.cons "width" (.str (pyStr wv))
                (.cons "height" (.str (pyStr hv)) (.cons "photo" PyVal.none (.cons "video" video .nil)))))
          else .ok (.cons "creation_time" (.str (pyStr ctv)) (.cons "width" (.str (pyStr wv))
            (.cons "height" (.str (pyStr hv)) (.cons "photo" photo .nil))))

/-- types/media_item.py `ContributorInfo.__init__`. -/
def ContributorInfo.init (d : Fields) : Except String Fields := do
  let p ← dictGetReq d "profilePictureBaseUrl"
  let n ← dictGetReq d "displayName"
  return .cons "profile_picture_base_url" (.str (pyStr p)) (.cons "display_name" (.str (pyStr n)) .nil)

/-- types/media_item.py `MediaItem.__init__`, transcribed as written: the
line `self.mime_type = str('mimeType')` stores the literal string
`"mimeType"`, not the value of the `mimeType` key, and `contributorInfo` is
read with a required subscript (`media_item['contributorInfo']`), not
`.get`. -/
def MediaItem.init (d : Fields) : Except String Fields := do
  let idv ← dictGetReq d "id"
  let descv ← dictGetReq d "description"
  let purlv ← dictGetReq d "productUrl"
  let burlv ← dictGetReq d "baseUrl"
  let mime_type := PyVal.str "mimeType"
  let mmv ← dictGetReq d "mediaMetadata"
  let mmd ← asDict mmv
  let media_metadata ← MediaMetadata.init mmd
  let civ ← dictGetReq d "contributorInfo"
  let contributor_info ←
    if truthy civ then do
      let cd ← asDict civ
      let c ← ContributorInfo.init cd
      pure (PyVal.obj c)
    else pure PyVal.none
  let fnv ← dictGetReq d "filename"
  return .cons "id" (.str (pyStr idv)) (.cons "description" (.str (pyStr descv))
    (.cons "product_url" (.str (pyStr purlv)) (.cons "base_url" (.str (pyStr burlv))
    (.cons "mime_type" mime_type (.cons "media_metadata" (.obj media_metadata)
    (.cons "contributor_info" contributor_info (.cons "filename" (.str (pyStr fnv)) .nil)))))))

def errTitle : String := "TypeError: Album: title should not be longer than 500 characters"

/-- types/album.py `Album.__init__`: all seven keys are required; the title
length is bounded by 500; `isWritable` goes through the `bool` builtin, so
the stored `is_writable` attribute is a genuine boolean. -/
def Album.init (d : Fields) : Except String Fields := do
  let idv ← dictGetReq d "id"
  let titlev ← dictGetReq d "title"
  let title := pyStr titlev
  if 500 < title.length then
    throw errTitle
  let purlv ← dictGetReq d "productUrl"
  let iwv ← dictGetReq d "isWritable"
  let micv ← dictGetReq d "mediaItemsCount"
  let media_items_count ← pyInt micv
  let cpbv ← dictGetReq d "coverPhotoBaseUrl"
  let cpmv ← dictGetReq d "coverPhotoMediaItemId"
  return .cons "id" (.str (pyStr idv)) (.cons "title" (.str title)
    (.cons "product_url" (.str (pyStr purlv)) (.cons "is_writable" (.bool (truthy iwv))
    (.cons "media_items_count" (.int media_items_count)
    (.cons "cover_photo_base_url" (.str (pyStr cpbv))
    (.cons "cover_photo_media_item_id" (.str (pyStr cpmv)) .nil))))))

def errYear : String := "TypeError: Date: year must be in range of 1 to 9999, or 0"
def errMonth : String := "TypeError: Date: month must be in range of 1 to 12, or 0"
def errDay : String := "TypeError: Date: day must be in range of 1 to 31, or 0"
def errDateCombo : String := "TypeError: Date: unsupported combination of zero values"

/-- types/filters.py `Date.__init__`. -/
def Date.init (d : Fields) : Except String Fields := do
  let yv ← dictGetReq d "year"
  let year ← pyInt yv
  if year < 0 || 9999 < year then
    throw errYear
  let mv ← dictGetReq d "month"
  let month ← pyInt mv
  if month < 0 || 12 < month then
    throw errMonth
  let dv ← dictGetReq d "day"
  let day ← pyInt dv
  if day < 0 || 31 < day then
    throw errDay
  let allValuesAreZero := year == 0 && month == 0 && day == 0
  let onlyMonthIsZero := !(year == 0) && month == 0 && !(day == 0)
  let dayAndYearAreBothZero := day == 0 && year == 0
  if allValuesAreZero || onlyMonthIsZero || dayAndYearAreBothZero then
    throw errDateCombo
  return .cons "year" (.int year) (.cons "month" (.int month) (.cons "day" (.int day) .nil))

/-- types/filters.py `DateRange.__init__`. -/
def DateRange.init (d : Fields) : Except String Fields := do
  let sv ← dictGetReq d "startDate"
  let sd ← asDict sv
  let s ← Date.init sd
  let ev ← dictGetReq d "endDate"
  let ed ← asDict ev
  let e ← Date.init ed
  return .cons "start_date" (.obj s) (.cons "end_date" (.obj e) .nil)

/-- Models a Python list comprehension `[F(x) for x in xs]` over nested
record constructors: each element is treated as a mapping and fed to `F`;
the first exception propagates. -/
def initEach (f : Fields → Except String Fields) : PyList → Except String (List Fields)
  | .nil => .ok []
  | .cons v rest =>
    match asDict v with
    | .error e => .error e
    | .ok vd =>
      match f vd with
      | .error e => .error e
      | .ok x =>
        match initEach f rest with
        | .error e => .error e
        | .ok xs => .ok (x :: xs)

/-- Models a Python list comprehension `[F(x) for x in xs]` where `F` maps a
raw value (enum lookup). -/
def initEachV (f : PyVal → Except String PyVal) : PyList → Except String (List PyVal)
  | .nil => .ok []
  | .cons v rest =>
    match f v with
    | .error e => .error e
    | .ok x =>
      match initEachV f rest with
      | .error e => .error e
      | .ok xs => .ok (x :: xs)

def errLenNone : String := "TypeError: object of type NoneType has no len"

/-- Models `len(x)` applied to an attribute that is either a list or `None`:
`len(None)` raises `TypeError`. -/
def pyLenOpt : Option (List γ) → Except String Nat
  | Option.some xs => .ok xs.length
  | Option.none => .error errLenNone

def pyListOfObjs : List Fields → PyList
  | [] => .nil
  | x :: xs => .cons (.obj x) (pyListOfObjs xs)

def pyListOfVals : List PyVal → PyList
  | [] => .nil
  | x :: xs => .cons x (pyListOfVals xs)

def optObjListToPyVal : Option (List Fields) → PyVal
  | Option.some xs => .list (pyListOfObjs xs)
  | Option.none => .none

def optValListToPyVal : Option (List PyVal) → PyVal
  | Option.some xs => .list (pyListOfVals xs)
  | Option.none => .none

def errNotIterable : String := "TypeError: object is not iterable"
def errMaxDates : String := "TypeError: DateFilter: a maximum of 5 dates can be included per request"
def errMaxRanges : String := "TypeError: DateFilter: a maximum of 5 date ranges can be included per request"

/-- types/filters.py `DateFilter.__init__`, transcribed as written: the
attribute `self.dates` is set to the converted list when the `dates` key is
truthy and to `None` otherwise, and the length check `len(self.dates) > 5`
is then applied unconditionally — so when the key was absent or empty the
check computes `len(None)` and raises `TypeError`.  The same shape repeats
for `ranges`. -/
def DateFilter.init (d : Fields) : Except String Fields :=
  let datesE : Except String (Option (List Fields)) :=
    if truthyO (dictGet d "dates") then
      match dictGet d "dates" with
      | Option.some (.list xs) => (initEach Date.init xs).map Option.some
      | _ => .error errNotIterable
    else .ok Option.none
  match datesE with
  | .error e => .error e
  | .ok dates =>
    match pyLenOpt dates with
    | .error e => .error e
    | .ok n =>
      if 5 < n then .error errMaxDates
      else
        let rangesE : Except String (Option (List Fields)) :=
          if truthyO (dictGet d "ranges") then
            match dictGet d "ranges" with
            | Option.some (.list xs) => (initEach DateRange.init xs).map Option.some
            | _ => .error errNotIterable
          else .ok Option.none
        match rangesE with
        | .error e => .error e
        | .ok ranges =>
          match pyLenOpt ranges with
          | .error e => .error e
          | .ok m =>
            if 5 < m then .error errMaxRanges
            else .ok (.cons "dates" (optObjListToPyVal dates)
              (.cons "ranges" (optObjListToPyVal ranges) .nil))

def contentCategoryTokens : List String :=
  ["NONE", "LANDSCAPES", "RECEIPTS", "CITYSCAPES", "LANDMARKS", "SELFIES", "PEOPLE",
   "PETS", "WEDDINGS", "BIRTHDAYS", "DOCUMENTS", "TRAVEL", "ANIMALS", "FOOD", "SPORT",
   "NIGHT", "PERFORMANCES", "WHITEBOARDS", "SCREENSHOTS", "UTILITY", "ARTS", "CRAFTS",
   "FASHION", "HOUSES", "GARDENS", "FLOWERS", "HOLIDAYS"]

def errContentCategory : String := "ValueError: not a valid ContentCategory"

/-- types/filters.py `ContentCategory(value)`: enum lookup by value. -/
def ContentCategory.ofValue (v : PyVal) : Except String PyVal :=
  match v with
  | .str s => if contentCategoryTokens.contains s then .ok (.enum s) else .error errContentCategory
  | _ => .error errContentCategory

def errMaxIncluded : String := "TypeError: ContentFilter: there is a maximum of 10 included content categories per request"
def errMaxExcluded : String := "TypeError: ContentFilter: there is a maximum of 10 excluded content categories per request"

/-- types/filters.py `ContentFilter.__init__`, transcribed as written: like
`DateFilter`, each optional category list is set to `None` when its key is
absent or empty and the maximum-length check is then applied
unconditionally, so `len(None)` raises `TypeError` in exactly those
cases. -/
def ContentFilter.init (d : Fields) : Except String Fields :=
  let includedE : Except String (Option (List PyVal)) :=
    if truthyO (dictGet d "includedContentCategories") then
      match dictGet d "includedContentCategories" with
      | Option.some (.list xs) => (initEachV ContentCategory.ofValue xs).map Option.some
      | _ => .error errNotIterable
    else .ok Option.none
  match includedE with
  | .error e => .error e
  | .ok included =>
    match pyLenOpt included with
    | .error e => .error e
    | .ok n =>
      if 10 < n then .error errMaxIncluded
      else
        let excludedE : Except String (Option (List PyVal)) :=
          if truthyO (dictGet d "excludedContentCategories") then
            match dictGet d "excludedContentCategories" with
            | Option.some (.list xs) => (initEachV ContentCategory.ofValue xs).map Option.some
            | _ => .error errNotIterable
          else .ok Option.none
        match excludedE with
        | .error e => .error e
        | .ok excluded =>
          match pyLenOpt excluded with
          | .error e => .error e
          | .ok m =>
            if 10 < m then .error errMaxExcluded
            else .ok (.cons "included_content_categories" (optValListToPyVal included)
              (.cons "excluded_content_categories" (optValListToPyVal excluded) .nil))

/-- One server response to a fetch: the raw item list of the page
(`response.get('albums')` / `response.get('mediaItems')`, an absent key
modelled as the empty list) and the returned continuation token
(`response.get('nextPageToken')`). -/
structure Page (α : Type) where
  items : List α
  nextPageToken : Option String

/-- Models the per-page list comprehension of the listing loops
(`[Album(a) for a in albums]`): decode each raw item, propagating the first
decoding exception. -/
def decodeItems (decode : α → Except String β) : List α → Except String (List β)
  | [] => .ok []
  | a :: as =>
    match decode a with
    | .error e => .error e
    | .ok b =>
      match decodeItems decode as with
      | .error e => .error e
      | .ok bs => .ok (b :: bs)

/-- The shared `while True` pagination loop of
`GooglePhotosAlbumAPIClient.list`, `GooglePhotosSharedAlbumAPIClient.list`,
`GooglePhotosMediaItemAPIClient.list` and
`GooglePhotosMediaItemAPIClient.search`: fetch a response, read the new
continuation token, yield the decoded page together with that token only
when the raw item list is truthy (non-empty), and break only when the token
is absent.  The argument list is the sequence of server responses, consumed
one per fetch; the second component of the result counts the fetches
performed. -/
def paginateRun (decode : α → Except String β) :
    List (Page α) → Except String (List (List β × Option String)) × Nat
  | [] => (.ok [], 0)
  | p :: rest =>
    if p.items.isEmpty then
      match p.nextPageToken with
      | Option.none => (.ok [], 1)
      | Option.some _ => ((paginateRun decode rest).1, (paginateRun decode rest).2 + 1)
    else
      match decodeItems decode p.items with
      | .error e => (.error e, 1)
      | .ok decoded =>
        match p.nextPageToken with
        | Option.none => (.ok [(decoded, Option.none)], 1)
        | Option.some t =>
          ((paginateRun decode rest).1.map (fun tail => (decoded, Option.some t) :: tail),
           (paginateRun decode rest).2 + 1)

/-- A well-formed server script: non-empty, every response before the last
carries a continuation token, and the last response carries none. -/
def wellFormedB : List (Page α) → Bool
  | [] => false
  | [p] => p.nextPageToken.isNone
  | p :: rest => p.nextPageToken.isSome && wellFormedB rest

def errNonEmptyAdd : String := "GooglePhotosAPIError: you need to provide a non-empty list of media_item_ids (batch add)"
def errMaxAdd : String := "GooglePhotosAPIError: maximum number of media items that can be added to album is 50"

/-- _album_api.py `GooglePhotosAlbumAPIClient.batch_add_media_items`,
transcribed as written: the guard is `if len(media_item_ids) != 0: raise`,
followed by `elif len(media_item_ids) > 50: raise`; when neither branch
fires the single `request.execute()` network call runs.  The second
component of the result counts the network requests issued. -/
def batch_add_media_items (media_item_ids : List String) : Except String Unit × Nat :=
  if media_item_ids.length ≠ 0 then (.error errNonEmptyAdd, 0)
  else if 50 < media_item_ids.length then (.error errMaxAdd, 0)
  else (.ok (), 1)

def errNonEmptyRemove : String := "GooglePhotosAPIError: you need to provide a non-empty list of media_item_ids (batch remove)"
def errMaxRemove : String := "GooglePhotosAPIError: maximum number of media items that can be removed from album is 50"
def errRepeated : String := "GooglePhotosAPIError: the media_item_ids cannot contain repeated identifiers"

/-- _album_api.py `GooglePhotosAlbumAPIClient.batch_remove_media_items`,
transcribed as written: `if len(media_item_ids) != 0: raise`, then
`if len(media_item_ids) > 50: raise`, then the repeated-identifier check
`len(set(media_item_ids)) != len(media_item_ids)`, then the single
`request.execute()` network call.  The second component counts the network
requests issued. -/
def batch_remove_media_items (media_item_ids : List String) : Except String Unit × Nat :=
  if media_item_ids.length ≠ 0 then (.error errNonEmptyRemove, 0)
  else if 50 < media_item_ids.length then (.error errMaxRemove, 0)
  else if media_item_ids.dedup.length ≠ media_item_ids.length then (.error errRepeated, 0)
  else (.ok (), 1)

def errPageSize50 : String := "GooglePhotosAPIError: page size cannot be bigger than 50"
def errPageSize100 : String := "GooglePhotosAPIError: page size cannot be bigger than 100"

/-- _album_api.py `GooglePhotosAlbumAPIClient.list`: the page-size guard
`if page_size > 50: raise` runs before the pagination loop, so a violation
is reported with zero fetches performed. -/
def albums_list (page_size : Int) (decode : α → Except String β) (pages : List (Page α)) :
    Except String (List (List β × Option String)) × Nat :=
  if 50 < page_size then (.error errPageSize50, 0)
  else paginateRun decode pages

/-- _shared_album_api.py `GooglePhotosSharedAlbumAPIClient.list`: identical
shape to the album listing, with the same 50 bound. -/
def shared_albums_list (page_size : Int) (decode : α → Except String β) (pages : List (Page α)) :
    Except String (List (List β × Option String)) × Nat :=
  if 50 < page_size then (.error errPageSize50, 0)
  else paginateRun decode pages

/-- _media_item_api.py `GooglePhotosMediaItemAPIClient.list`: the guard is
`if page_size > 100: raise`, before the loop. -/
def media_items_list (page_size : Int) (decode : α → Except String β) (pages : List (Page α)) :
    Except String (List (List β × Option String)) × Nat :=
  if 100 < page_size then (.error errPageSize100, 0)
  else paginateRun decode pages

/-- Python truthiness of an optional string argument (`if album_id:`): a
missing argument is `None` (falsy) and an empty string is also falsy. -/
def truthyOptStr : Option String → Bool
  | Option.none => false
  | Option.some s => !s.isEmpty

def errMutual : String := "GooglePhotosAPIError: album ID cannot be used in conjunction with filters"

/-- _media_item_api.py `GooglePhotosMediaItemAPIClient.search`: first the
mutual-exclusion guard `if album_id and filters: raise` (Python truthiness:
an absent or empty-string album id is falsy; a `Filters` instance, having
neither `__bool__` nor `__len__`, is always truthy when supplied), then the
page-size guard `if page_size > 100: raise`, then the pagination loop.  The
filters argument is abstract here: only its presence matters to the
guards. -/
def media_items_search (album_id : Option String) (filters : Option γ) (page_size : Int)
    (decode : α → Except String β) (pages : List (Page α)) :
    Except String (List (List β × Option String)) × Nat :=
  if truthyOptStr album_id && filters.isSome then (.error errMutual, 0)
  else if 100 < page_size then (.error errPageSize100, 0)
  else paginateRun decode pages

mutual
/-- A value of the class the serializer contract quantifies over: `None`, a
primitive (text, integer, floating point, sequence, mapping), an enum
member, or a nested record all of whose set fields are again of this class.
Booleans are outside the class. -/
def serializableB : PyVal → Bool
  | .none => true
  | .str _ => true
  | .int _ => true
  | .float _ => true
  | .list _ => true
  | .dict _ => true
  | .enum _ => true
  | .bool _ => false
  | .obj fields => fieldsSerializableB fields

def fieldsSerializableB : Fields → Bool
  | .nil => true
  | .cons _ v rest => serializableB v && fieldsSerializableB rest
end

mutual
/-- Spec-side description of the serialized form of one value, following the
spec wording: enum members are replaced by their underlying token, nested
records are recursively converted to mappings, primitives pass through
unchanged. -/
def specConvert : PyVal → PyVal
  | .none => .none
  | .str s => .str s
  | .int n => .int n
  | .float lit => .float lit
  | .bool b => .bool b
  | .enum tok => .str tok
  | .list xs => .list xs
  | .dict kvs => .dict kvs
  | .obj fields => .dict (specFields fields)

/-- Spec-side description of the serialized record: a mapping containing
exactly the fields whose value is not absent, with keys translated from
snake_case to camelCase and values converted by `specConvert`. -/
def specFields : Fields → Fields
  | .nil => .nil
  | .cons k v rest =>
    if v.isNone then specFields rest
    else .cons (snake_case_to_camel_case k) (specConvert v) (specFields rest)
end

theorem serializer_refines_spec : ∀ n : Nat,
    (∀ v : PyVal, sizeOf v ≤ n → serializableB v = true →
      serializeValue v = .ok (specConvert v)) ∧
    (∀ fs : Fields, sizeOf fs ≤ n → fieldsSerializableB fs = true →
      to_dict fs = .ok (specFields fs)) := by
  intro n
  induction n with
  | zero =>
    constructor
    · intro v hv
      exfalso
      cases v <;> simp at hv
    · intro fs hfs
      exfalso
      cases fs <;> simp at hfs
  | succ n ih =>
    constructor
    · intro v hv hser
      cases v with
      | none => rfl
      | str s => rfl
      | int m => rfl
      | float lit => rfl
      | bool b => simp [serializableB] at hser
      | enum tok => rfl
      | list xs => rfl
      | dict kvs => rfl
      | obj fields =>
        have hf : fieldsSerializableB fields = true := by
          simpa [serializableB] using hser
        have hsz : sizeOf fields ≤ n := by
          simp at hv
          omega
        have hrec := ih.2 fields hsz hf
        simp [serializeValue, specConvert, hrec, Except.map]
    · intro fs hsz hser
      cases fs with
      | nil => rfl
      | cons k v rest =>
        have hpair : serializableB v = true ∧ fieldsSerializableB rest = true := by
          simpa [fieldsSerializableB, Bool.and_eq_true] using hser
        have hv : sizeOf v ≤ n := by
          simp at hsz
          omega
        have hr : sizeOf rest ≤ n := by
          simp at hsz
          omega
        have h1 := ih.1 v hv hpair.1
        have h2 := ih.2 rest hr hpair.2
        cases v with
        | none => simpa [to_dict, specFields, PyVal.isNone] using h2
        | bool b => simp [serializableB] at hpair
        | str s =>
          simp only [to_dict, specFields, PyVal.isNone, if_false, Bool.false_eq_true]
          rw [show serializeValue (.str s) = .ok (specConvert (.str s)) from h1, h2]
        | int m =>
          simp only [to_dict, specFields, PyVal.isNone, if_false, Bool.false_eq_true]
          rw [show serializeValue (.int m) = .ok (specConvert (.int m)) from h1, h2]
        | float lit =>
          simp only [to_dict, specFields, PyVal.isNone, if_false, Bool.false_eq_true]
          rw [show serializeValue (.float lit) = .ok (specConvert (.float lit)) from h1, h2]
        | enum tok =>
          simp only [to_dict, specFields, PyVal.isNone, if_false, Bool.false_eq_true]
          rw [show serializeValue (.enum tok) = .ok (specConvert (.enum tok)) from h1, h2]
        | list xs =>
          simp only [to_dict, specFields, PyVal.isNone, if_false, Bool.false_eq_true]
          rw [show serializeValue (.list xs) = .ok (specConvert (.list xs)) from h1, h2]
        | dict kvs =>
          simp only [to_dict, specFields, PyVal.isNone, if_false, Bool.false_eq_true]
          rw [show serializeValue (.dict kvs) = .ok (specConvert (.dict kvs)) from h1, h2]
        | obj fields =>
          simp only [to_dict, specFields, PyVal.isNone, if_false, Bool.false_eq_true]
          rw [show serializeValue (.obj fields) = .ok (specConvert (.obj fields)) from h1, h2]

/-- Claim C5: for every record whose field values are each absent, a
primitive, an enum member, or a (recursively well-behaved) nested record,
`to_dict` succeeds and returns exactly the mapping described by the spec:
only the non-absent fields, enum values replaced by their underlying token,
nested records recursively converted, primitives passed through unchanged,
and every key translated from snake_case to camelCase.  The embedding is a
pure function, so the absence of I/O, of validation and of mutation of the
argument is inherent. -/
theorem claim_C5_serializer_contract (fs : Fields) (h : fieldsSerializableB fs = true) :
    to_dict fs = .ok (specFields fs) :=
  (serializer_refines_spec (sizeOf fs)).2 fs le_rfl h

def c5Sample : Fields :=
  .cons "a_key" (.str "x") (.cons "unset_field" PyVal.none
    (.cons "media_type" (.enum "PHOTO")
    (.cons "nested_rec" (.obj (.cons "inner_count" (.int 3) .nil))
    (.cons "plain" (.int 7) .nil))))

theorem claim_C5_serializer_contract_witness :
    fieldsSerializableB c5Sample = true ∧
      to_dict c5Sample = .ok (specFields c5Sample) :=
  ⟨by rfl, claim_C5_serializer_contract c5Sample (by rfl)⟩

def isOkB : Except String γ → Bool
  | .ok _ => true
  | .error _ => false

def hasBoolField : Fields → Bool
  | .nil => false
  | .cons _ (.bool _) _ => true
  | .cons _ _ rest => hasBoolField rest

theorem to_dict_cons_not_none (k : String) (v : PyVal) (rest : Fields)
    (hv : v.isNone = false) :
    to_dict (.cons k v rest) =
      match serializeValue v with
      | .error e => .error e
      | .ok v2 =>
        match to_dict rest with
        | .error e => .error e
        | .ok rest2 => .ok (.cons (snake_case_to_camel_case k) v2 rest2) := by
  cases v with
  | none => simp [PyVal.isNone] at hv
  | str s => rfl
  | int n => rfl
  | float lit => rfl
  | bool b => rfl
  | enum tok => rfl
  | list xs => rfl
  | dict kvs => rfl
  | obj fields => rfl

theorem c9aux : ∀ fs : Fields, hasBoolField fs = true → isOkB (to_dict fs) = false
  | .nil, h => by simp [hasBoolField] at h
  | .cons k v rest, h => by
    cases v with
    | bool b =>
      rw [to_dict_cons_not_none k (.bool b) rest rfl]
      simp [serializeValue, isOkB]
    | none =>
      have h2 : hasBoolField rest = true := by simpa [hasBoolField] using h
      simpa [to_dict] using c9aux rest h2
    | str s =>
      have h2 : hasBoolField rest = true := by simpa [hasBoolField] using h
      have hr := c9aux rest h2
      rw [to_dict_cons_not_none k (.str s) rest rfl]
      rcases hrest : to_dict rest with e | r
      · simp [serializeValue, hrest, isOkB]
      · rw [hrest] at hr
        simp [isOkB] at hr
    | int m =>
      have h2 : hasBoolField rest = true := by simpa [hasBoolField] using h
      have hr := c9aux rest h2
      rw [to_dict_cons_not_none k (.int m) rest rfl]
      rcases hrest : to_dict rest with e | r
      · simp [serializeValue, hrest, isOkB]
      · rw [hrest] at hr
        simp [isOkB] at hr
    | float lit =>
      have h2 : hasBoolField rest = true := by simpa [hasBoolField] using h
      have hr := c9aux rest h2
      rw [to_dict_cons_not_none k (.float lit) rest rfl]
      rcases hrest : to_dict rest with e | r
      · simp [serializeValue, hrest, isOkB]
      · rw [hrest] at hr
        simp [isOkB] at hr
    | enum tok =>
      have h2 : hasBoolField rest = true := by simpa [hasBoolField] using h
      have hr := c9aux rest h2
      rw [to_dict_cons_not_none k (.enum tok) rest rfl]
      rcases hrest : to_dict rest with e | r
      · simp [serializeValue, hrest, isOkB]
      · rw [hrest] at hr
        simp [isOkB] at hr
    | list xs =>
      have h2 : hasBoolField rest = true := by simpa [hasBoolField] using h
      have hr := c9aux rest h2
      rw [to_dict_cons_not_none k (.list xs) rest rfl]
      rcases hrest : to_dict rest with e | r
      · simp [serializeValue, hrest, isOkB]
      · rw [hrest] at hr
        simp [isOkB] at hr
    | dict kvs =>
      have h2 : hasBoolField rest = true := by simpa [hasBoolField] using h
      have hr := c9aux rest h2
      rw [to_dict_cons_not_none k (.dict kvs) rest rfl]
      rcases hrest : to_dict rest with e | r
      · simp [serializeValue, hrest, isOkB]
      · rw [hrest] at hr
        simp [isOkB] at hr
    | obj fields =>
      have h2 : hasBoolField rest = true := by simpa [hasBoolField] using h
      have hr := c9aux rest h2
      rw [to_dict_cons_not_none k (.obj fields) rest rfl]
      rcases hsv : serializeValue (.obj fields) with e | v2
      · simp [hsv, isOkB]
      · rcases hrest : to_dict rest with e | r
        · simp [hsv, hrest, isOkB]
        · rw [hrest] at hr
          simp [isOkB] at hr

/-- Claim C9: `to_dict` is not total on records with boolean-valued fields:
whenever some field value is a boolean, serialization raises instead of
emitting the boolean, because `bool` is not in the serializer's exact-type
primitive list and is not an `Enum`, so the boolean is treated as a nested
record and the recursion into it fails. -/
theorem claim_C9_bool_field_fails (fs : Fields) (h : hasBoolField fs = true) :
    isOkB (to_dict fs) = false :=
  c9aux fs h

def c9AlbumInput : Fields :=
  .cons "id" (.str "a1") (.cons "title" (.str "t") (.cons "productUrl" (.str "p")
    (.cons "isWritable" (.bool true) (.cons "mediaItemsCount" (.int 3)
    (.cons "coverPhotoBaseUrl" (.str "c") (.cons "coverPhotoMediaItemId" (.str "m") .nil))))))

def c9AlbumObj : Fields :=
  .cons "id" (.str "a1") (.cons "title" (.str "t") (.cons "product_url" (.str "p")
    (.cons "is_writable" (.bool true) (.cons "media_items_count" (.int 3)
    (.cons "cover_photo_base_url" (.str "c") (.cons "cover_photo_media_item_id" (.str "m") .nil))))))

theorem claim_C9_bool_field_fails_witness :
    Album.init c9AlbumInput = .ok c9AlbumObj ∧
      hasBoolField c9AlbumObj = true ∧
      isOkB (to_dict c9AlbumObj) = false :=
  ⟨by rfl, by rfl, claim_C9_bool_field_fails c9AlbumObj (by rfl)⟩

/-- Claim C2 (code bug): the guard of `batch_add_media_items` is inverted
(`!= 0` where the message and docstring demand `== 0`): every non-empty
identifier list — including lists of 1 to 50 ids — is rejected with the
non-empty-list validation error and no request is issued, while the empty
list passes validation and one network request is issued. -/
theorem claim_C2_inverted_check :
    batch_add_media_items ["a"] = (.error errNonEmptyAdd, 0) ∧
      batch_add_media_items ["a", "b"] = (.error errNonEmptyAdd, 0) ∧
      batch_add_media_items [] = (.ok (), 1) :=
  ⟨rfl, rfl, rfl⟩

/-- Claim C3 (code bug): the guard of `batch_remove_media_items` is inverted
in the same way: the empty list passes all three checks and one network
request is issued, while every non-empty list — a single id, a duplicate
pair, or 51 ids alike — is rejected by the first check with the
non-empty-list error (so the duplicate case does fail, but with the wrong
error and for the wrong reason). -/
theorem claim_C3_inverted_check :
    batch_remove_media_items [] = (.ok (), 1) ∧
      batch_remove_media_items ["a"] = (.error errNonEmptyRemove, 0) ∧
      batch_remove_media_items ["a", "a"] = (.error errNonEmptyRemove, 0) :=
  ⟨rfl, rfl, rfl⟩

def c4Input : Fields :=
  .cons "id" (.str "m1") (.cons "description" (.str "a photo")
    (.cons "productUrl" (.str "pu") (.cons "baseUrl" (.str "bu")
    (.cons "mimeType" (.str "image/jpeg")
    (.cons "mediaMetadata" (.dict (.cons "creationTime" (.str "2020-01-01T00:00:00Z")
      (.cons "width" (.str "100") (.cons "height" (.str "100")
      (.cons "photo" (.dict (.cons "cameraMake" (.str "Canon") .nil)) .nil)))))
    (.cons "contributorInfo" PyVal.none (.cons "filename" (.str "f.jpg") .nil)))))))

def c4Obj : Fields :=
  .cons "id" (.str "m1") (.cons "description" (.str "a photo")
    (.cons "product_url" (.str "pu") (.cons "base_url" (.str "bu")
    (.cons "mime_type" (.str "mimeType")
    (.cons "media_metadata" (.obj (.cons "creation_time" (.str "2020-01-01T00:00:00Z")
      (.cons "width" (.str "100") (.cons "height" (.str "100")
      (.cons "photo" (.obj (.cons "camera_make" (.str "Canon")
        (.cons "camera_model" PyVal.none (.cons "focal_length" PyVal.none
        (.cons "aperture_f_number" PyVal.none (.cons "iso_equivalent" PyVal.none
        (.cons "exposure_time" PyVal.none .nil)))))))
      .nil)))))
    (.cons "contributor_info" PyVal.none (.cons "filename" (.str "f.jpg") .nil)))))))

def c4Out : Fields :=
  .cons "id" (.str "m1") (.cons "description" (.str "a photo")
    (.cons "productUrl" (.str "pu") (.cons "baseUrl" (.str "bu")
    (.cons "mimeType" (.str "mimeType")
    (.cons "mediaMetadata" (.dict (.cons "creationTime" (.str "2020-01-01T00:00:00Z")
      (.cons "width" (.str "100") (.cons "height" (.str "100")
      (.cons "photo" (.dict (.cons "cameraMake" (.str "Canon") .nil)) .nil)))))
    (.cons "filename" (.str "f.jpg") .nil))))))

/-- Claim C4 (code bug): the construct–serialize round trip loses field
values.  On a valid media-item mapping whose `mimeType` is `"image/jpeg"`,
construction succeeds but stores the literal string `"mimeType"` (the
source line is `self.mime_type = str('mimeType')`), so the serialized
mapping carries `mimeType = "mimeType"` and the input value is lost. -/
theorem claim_C4_mime_type_lost :
    MediaItem.init c4Input = .ok c4Obj ∧
      to_dict c4Obj = .ok c4Out ∧
      dictGet c4Input "mimeType" = Option.some (.str "image/jpeg") ∧
      dictGet c4Out "mimeType" = Option.some (.str "mimeType") :=
  ⟨rfl, rfl, rfl, rfl⟩

theorem decodeItems_ok (f : α → β) :
    ∀ xs : List α, decodeItems (fun a => Except.ok (f a)) xs = .ok (xs.map f)
  | [] => rfl
  | a :: as => by
    rw [decodeItems, decodeItems_ok f as]
    rfl

/-- The last yielded page-and-token pair of a run, when any page was
yielded. -/
def lastYieldedToken : List (List β × Option String) → Option (Option String)
  | [] => Option.none
  | [y] => Option.some y.2
  | _ :: ys => lastYieldedToken ys

theorem wellFormedB_cons_cons (p q : Page α) (rs : List (Page α)) :
    wellFormedB (p :: q :: rs) = (p.nextPageToken.isSome && wellFormedB (q :: rs)) := rfl

theorem paginateRun_wf (f : α → β) :
    ∀ pages : List (Page α), wellFormedB pages = true →
      paginateRun (fun a => Except.ok (f a)) pages =
        (.ok ((pages.filter (fun p => !p.items.isEmpty)).map
            (fun p => (p.items.map f, p.nextPageToken))),
         pages.length)
  | [], hw => by simp [wellFormedB] at hw
  | [p], hw => by
    obtain ⟨items, tok⟩ := p
    rw [wellFormedB] at hw
    have ht : tok = Option.none := by
      cases tok with
      | none => rfl
      | some t => simp at hw
    subst ht
    cases hpi : items.isEmpty <;>
      simp [paginateRun, hpi, decodeItems_ok, List.filter]
  | p :: q :: rs, hw => by
    obtain ⟨items, tok⟩ := p
    rw [wellFormedB_cons_cons, Bool.and_eq_true] at hw
    obtain ⟨t, ht⟩ : ∃ t, tok = Option.some t := by
      cases tok with
      | none => simp at hw
      | some t => exact ⟨t, rfl⟩
    subst ht
    have ih := paginateRun_wf f (q :: rs) hw.2
    rw [paginateRun, ih]
    cases hpi : items.isEmpty <;>
      simp [hpi, decodeItems_ok, List.filter, Except.map]

theorem last_token_wf (f : α → β) :
    ∀ pages : List (Page α), wellFormedB pages = true →
      lastYieldedToken (pages.map (fun p => (p.items.map f, p.nextPageToken))) =
        Option.some Option.none
  | [], hw => by simp [wellFormedB] at hw
  | [p], hw => by
    obtain ⟨items, tok⟩ := p
    rw [wellFormedB] at hw
    have ht : tok = Option.none := by
      cases tok with
      | none => rfl
      | some t => simp at hw
    subst ht
    rfl
  | p :: q :: rs, hw => by
    rw [wellFormedB_cons_cons, Bool.and_eq_true] at hw
    have ih := last_token_wf f (q :: rs) hw.2
    simpa [lastYieldedToken] using ih

/-- Claim C1 (amended): for a fetch function that returns N pages before
omitting the next-token (a well-formed server script) and a total per-item
decoder, a full run of the shared pagination loop issues exactly N fetch
calls and yields, in server-returned order, exactly the fetched pages whose
item list is non-empty, each paired with the token from its own response;
termination happens only when the returned token is absent, never because
an item list is empty — a zero-item page with a live token is fetched and
skipped, and iteration continues.  When every fetched page is non-empty
this specializes to the original claim: exactly N pages are yielded in
order and the final yielded next-token is absent. -/
theorem claim_C1_pagination (f : α → β) (pages : List (Page α))
    (hw : wellFormedB pages = true) :
    (paginateRun (fun a => Except.ok (f a)) pages).2 = pages.length ∧
    (paginateRun (fun a => Except.ok (f a)) pages).1 =
      .ok ((pages.filter (fun p => !p.items.isEmpty)).map
        (fun p => (p.items.map f, p.nextPageToken))) ∧
    ((∀ p ∈ pages, p.items.isEmpty = false) →
      (paginateRun (fun a => Except.ok (f a)) pages).1 =
        .ok (pages.map (fun p => (p.items.map f, p.nextPageToken))) ∧
      lastYieldedToken (pages.map (fun p => (p.items.map f, p.nextPageToken))) =
        Option.some Option.none) := by
  have h := paginateRun_wf f pages hw
  refine ⟨by rw [h], by rw [h], fun hall => ⟨?_, last_token_wf f pages hw⟩⟩
  have hfilter : pages.filter (fun p => !p.items.isEmpty) = pages :=
    List.filter_eq_self.mpr (fun p hp => by rw [hall p hp]; rfl)
  rw [h, hfilter]

def c1Pages : List (Page Nat) := [⟨[1], Option.some "t"⟩, ⟨[2, 3], Option.none⟩]

theorem claim_C1_pagination_witness :
    wellFormedB c1Pages = true ∧
      (paginateRun (fun a : Nat => Except.ok (id a)) c1Pages).2 = c1Pages.length :=
  ⟨by rfl, (claim_C1_pagination id c1Pages (by rfl)).1⟩

/-- Claim C1 as literally stated is false on the code: a fetched page with
zero items and a live next-token is not yielded (the loop guards the yield
with `if albums:` / `if media_items:`), although iteration does continue.
Here the server returns N = 2 pages, the first with zero items and a valid
token: the run issues 2 fetches but yields only 1 page, not 2. -/
theorem claim_C1_counterexample :
    wellFormedB [(⟨[], Option.some "t"⟩ : Page Nat), ⟨[5], Option.none⟩] = true ∧
    (paginateRun (fun a : Nat => Except.ok a)
      [(⟨[], Option.some "t"⟩ : Page Nat), ⟨[5], Option.none⟩]).2 = 2 ∧
    (paginateRun (fun a : Nat => Except.ok a)
      [(⟨[], Option.some "t"⟩ : Page Nat), ⟨[5], Option.none⟩]).1 =
      .ok [([5], Option.none)] :=
  ⟨rfl, rfl, rfl⟩

/-- Claim C6: every listing or search entry point checks its page-size bound
(50 for album and shared-album listings, 100 for media-item listing and
search) before the pagination loop: a value above the bound yields the
validation error with zero fetches performed, and a value at or below the
bound passes the check, the run proceeding to the fetch loop. -/
theorem claim_C6_page_size_validation (page_size : Int) (decode : α → Except String β)
    (pages : List (Page α)) (album_id : Option String) :
    albums_list page_size decode pages =
      (if 50 < page_size then (.error errPageSize50, 0) else paginateRun decode pages) ∧
    shared_albums_list page_size decode pages =
      (if 50 < page_size then (.error errPageSize50, 0) else paginateRun decode pages) ∧
    media_items_list page_size decode pages =
      (if 100 < page_size then (.error errPageSize100, 0) else paginateRun decode pages) ∧
    media_items_search album_id (Option.none : Option Unit) page_size decode pages =
      (if 100 < page_size then (.error errPageSize100, 0) else paginateRun decode pages) := by
  refine ⟨rfl, rfl, rfl, ?_⟩
  simp [media_items_search]

/-- Claim C7 as literally stated is false on the code: the guard is Python
truthiness, not a null test.  With the non-null empty-string album id and a
non-null filter set, `if album_id and filters:` does not fire: no validation
error is raised and one network call is issued. -/
theorem claim_C7_counterexample :
    media_items_search (Option.some "") (Option.some ()) 25 (fun n : Nat => Except.ok n)
      [(⟨[7], Option.none⟩ : Page Nat)] = (.ok [([7], Option.none)], 1) :=
  rfl

/-- Claim C7 (amended): search fails with the mutual-exclusion validation
error, before any network call, exactly when the album id is supplied as a
non-empty string (truthy) and the filter set is non-null; when the album id
is absent or empty, or the filter set is absent, the mutual-exclusion check
passes and the call proceeds to the page-size check and then the fetch
loop. -/
theorem claim_C7_mutual_exclusion (album_id : Option String) (filters : Option γ)
    (page_size : Int) (decode : α → Except String β) (pages : List (Page α)) :
    (truthyOptStr album_id = true → filters.isSome = true →
      media_items_search album_id filters page_size decode pages = (.error errMutual, 0)) ∧
    (truthyOptStr album_id = false ∨ filters.isSome = false →
      media_items_search album_id filters page_size decode pages =
        if 100 < page_size then (.error errPageSize100, 0) else paginateRun decode pages) := by
  constructor
  · intro h1 h2
    simp [media_items_search, h1, h2]
  · intro h
    rcases h with h | h <;> simp [media_items_search, h]

theorem claim_C7_mutual_exclusion_witness :
    media_items_search (Option.some "a") (Option.some ()) 25 (fun n : Nat => Except.ok n)
      ([] : List (Page Nat)) = (.error errMutual, 0) ∧
    media_items_search (Option.none : Option String) (Option.some ()) 25
      (fun n : Nat => Except.ok n) ([] : List (Page Nat)) =
      (if (100 : Int) < 25 then (.error errPageSize100, 0)
       else paginateRun (fun n : Nat => Except.ok n) ([] : List (Page Nat))) :=
  ⟨(claim_C7_mutual_exclusion (Option.some "a") (Option.some ()) 25
      (fun n : Nat => Except.ok n) ([] : List (Page Nat))).1 (by rfl) (by rfl),
   (claim_C7_mutual_exclusion (Option.none : Option String) (Option.some ()) 25
      (fun n : Nat => Except.ok n) ([] : List (Page Nat))).2 (Or.inl (by rfl))⟩

def hasKeyB (o : Fields) (k : String) : Bool :=
  (dictGet o k).isSome

/-- Both union alternatives set at once: the record has a non-`None` value
under both the `photo` and the `video` attribute. -/
def bothAlternativesSetB (o : Fields) : Bool :=
  (match dictGet o "photo" with
   | Option.some v => !v.isNone
   | Option.none => false) &&
  (match dictGet o "video" with
   | Option.some v => !v.isNone
   | Option.none => false)

theorem truthyO_eq_true (x : Option PyVal) (h : truthyO x = true) :
    ∃ v, x = Option.some v ∧ truthy v = true := by
  cases x with
  | none => simp [truthyO] at h
  | some v => exact ⟨v, rfl, h⟩

theorem initSub_falsy (f : Fields → Except String Fields) (raw : Option PyVal)
    (h : truthyO raw = false) : initSub f raw = .ok .none := by
  simp [initSub, h]

theorem initSub_ok_obj (f : Fields → Except String Fields) (raw : Option PyVal)
    (hr : truthyO raw = true) (pv : PyVal) (h : initSub f raw = .ok pv) :
    ∃ p, pv = .obj p := by
  obtain ⟨v, rfl, hv⟩ := truthyO_eq_true raw hr
  rcases ha : asDict v with e | vd
  · simp only [initSub, truthyO, hv, if_true, ha] at h
    simp at h
  · rcases hf : f vd with e2 | o
    · simp only [initSub, truthyO, hv, if_true, ha, hf] at h
      simp at h
    · simp only [initSub, truthyO, hv, if_true, ha, hf] at h
      simp at h
      exact ⟨o, h.symm⟩

/-- Claim C8: for every mapping fed to the `MediaMetadata` constructor, if
neither the photo nor the video alternative is present (truthy) the
construction fails; when the photo alternative is present and construction
succeeds, the record holds the photo sub-record and its `video` attribute is
left unset (not even a `None` entry in the `__dict__`); and a successfully
constructed record never holds both alternatives set at once. -/
theorem claim_C8_media_metadata_union (d : Fields) :
    (truthyO (dictGet d "photo") = false → truthyO (dictGet d "video") = false →
      isOkB (MediaMetadata.init d) = false) ∧
    (∀ o, MediaMetadata.init d = .ok o → truthyO (dictGet d "photo") = true →
      (∃ p, dictGet o "photo" = Option.some (.obj p)) ∧ hasKeyB o "video" = false) ∧
    (∀ o, MediaMetadata.init d = .ok o → bothAlternativesSetB o = false) := by
  refine ⟨?_, ?_, ?_⟩
  · intro hp hv
    have hps := initSub_falsy Photo.init (dictGet d "photo") hp
    have hvs := initSub_falsy Video.init (dictGet d "video") hv
    rcases h1 : dictGetReq d "creationTime" with e | ctv
    · simp [MediaMetadata.init, h1, isOkB]
    rcases h2 : dictGetReq d "width" with e | wv
    · simp [MediaMetadata.init, h1, h2, isOkB]
    rcases h3 : dictGetReq d "height" with e | hv2
    · simp [MediaMetadata.init, h1, h2, h3, isOkB]
    simp [MediaMetadata.init, h1, h2, h3, hps, hvs, PyVal.isNone, isOkB]
  · intro o ho hp
    rcases h1 : dictGetReq d "creationTime" with e | ctv
    · simp [MediaMetadata.init, h1] at ho
    rcases h2 : dictGetReq d "width" with e | wv
    · simp [MediaMetadata.init, h1, h2] at ho
    rcases h3 : dictGetReq d "height" with e | hv2
    · simp [MediaMetadata.init, h1, h2, h3] at ho
    rcases h4 : initSub Photo.init (dictGet d "photo") with e | photo
    · simp [MediaMetadata.init, h1, h2, h3, h4] at ho
    obtain ⟨p, rfl⟩ := initSub_ok_obj Photo.init (dictGet d "photo") hp photo h4
    simp [MediaMetadata.init, h1, h2, h3, h4, PyVal.isNone] at ho
    subst ho
    exact ⟨⟨p, rfl⟩, rfl⟩
  · intro o ho
    rcases h1 : dictGetReq d "creationTime" with e | ctv
    · simp [MediaMetadata.init, h1] at ho
    rcases h2 : dictGetReq d "width" with e | wv
    · simp [MediaMetadata.init, h1, h2] at ho
    rcases h3 : dictGetReq d "height" with e | hv2
    · simp [MediaMetadata.init, h1, h2, h3] at ho
    rcases h4 : initSub Photo.init (dictGet d "photo") with e | photo
    · simp [MediaMetadata.init, h1, h2, h3, h4] at ho
    cases hpn : photo.isNone with
    | true =>
      rcases h5 : initSub Video.init (dictGet d "video") with e | video
      · simp [MediaMetadata.init, h1, h2, h3, h4, hpn, h5] at ho
      cases hvn : video.isNone with
      | true => simp [MediaMetadata.init, h1, h2, h3, h4, hpn, h5, hvn] at ho
      | false =>
        simp [MediaMetadata.init, h1, h2, h3, h4, hpn, h5, hvn] at ho
        subst ho
        rfl
    | false =>
      simp [MediaMetadata.init, h1, h2, h3, h4, hpn] at ho
      subst ho
      show (!photo.isNone && false) = false
      exact Bool.and_false _

def c8BothInput : Fields :=
  .cons "creationTime" (.str "t") (.cons "width" (.str "1") (.cons "height" (.str "2")
    (.cons "photo" (.dict (.cons "cameraMake" (.str "c") .nil))
    (.cons "video" (.dict (.cons "cameraMake" (.str "v") .nil)) .nil))))

def c8BothObj : Fields :=
  .cons "creation_time" (.str "t") (.cons "width" (.str "1") (.cons "height" (.str "2")
    (.cons "photo" (.obj (.cons "camera_make" (.str "c")
      (.cons "camera_model" PyVal.none (.cons "focal_length" PyVal.none
      (.cons "aperture_f_number" PyVal.none (.cons "iso_equivalent" PyVal.none
      (.cons "exposure_time" PyVal.none .nil)))))))
    .nil)))

def c8NeitherInput : Fields :=
  .cons "creationTime" (.str "t") (.cons "width" (.str "1") (.cons "height" (.str "2") .nil))

theorem claim_C8_media_metadata_union_witness :
    MediaMetadata.init c8BothInput = .ok c8BothObj ∧
      ((∃ p, dictGet c8BothObj "photo" = Option.some (.obj p)) ∧
        hasKeyB c8BothObj "video" = false) ∧
      isOkB (MediaMetadata.init c8NeitherInput) = false :=
  ⟨by rfl,
   (claim_C8_media_metadata_union c8BothInput).2.1 c8BothObj (by rfl) (by rfl),
   (claim_C8_media_metadata_union c8NeitherInput).1 (by rfl) (by rfl)⟩

theorem dateFilter_falsy (d : Fields)
    (h : truthyO (dictGet d "dates") = false ∨ truthyO (dictGet d "ranges") = false) :
    isOkB (DateFilter.init d) = false := by
  rcases h with h | h
  · simp [DateFilter.init, h, pyLenOpt, isOkB]
  · cases hd : truthyO (dictGet d "dates") with
    | false => simp [DateFilter.init, hd, pyLenOpt, isOkB]
    | true =>
      rcases hv : dictGet d "dates" with _ | v
      · rw [hv] at hd
        simp [truthyO] at hd
      · rw [hv] at hd
        cases v with
        | list xs =>
          rcases he : initEach Date.init xs with e | ds
          · simp [DateFilter.init, hv, hd, he, Except.map, pyLenOpt, isOkB]
          · simp only [DateFilter.init, hv, hd, he, h, Except.map, pyLenOpt, if_true,
              Bool.false_eq_true, if_false]
            split <;> simp [pyLenOpt, isOkB]
        | none => simp [truthyO, truthy] at hd
        | str s => simp [DateFilter.init, hv, hd, pyLenOpt, isOkB]
        | int n => simp [DateFilter.init, hv, hd, pyLenOpt, isOkB]
        | float lit => simp [DateFilter.init, hv, hd, pyLenOpt, isOkB]
        | bool b => simp [DateFilter.init, hv, hd, pyLenOpt, isOkB]
        | enum tok => simp [DateFilter.init, hv, hd, pyLenOpt, isOkB]
        | dict kvs => simp [DateFilter.init, hv, hd, pyLenOpt, isOkB]
        | obj fields => simp [DateFilter.init, hv, hd, pyLenOpt, isOkB]

theorem contentFilter_falsy (d : Fields)
    (h : truthyO (dictGet d "includedContentCategories") = false ∨
      truthyO (dictGet d "excludedContentCategories") = false) :
    isOkB (ContentFilter.init d) = false := by
  rcases h with h | h
  · simp [ContentFilter.init, h, pyLenOpt, isOkB]
  · cases hd : truthyO (dictGet d "includedContentCategories") with
    | false => simp [ContentFilter.init, hd, pyLenOpt, isOkB]
    | true =>
      rcases hv : dictGet d "includedContentCategories" with _ | v
      · rw [hv] at hd
        simp [truthyO] at hd
      · rw [hv] at hd
        cases v with
        | list xs =>
          rcases he : initEachV ContentCategory.ofValue xs with e | cs
          · simp [ContentFilter.init, hv, hd, he, Except.map, pyLenOpt, isOkB]
          · simp only [ContentFilter.init, hv, hd, he, h, Except.map, pyLenOpt, if_true,
              Bool.false_eq_true, if_false]
            split <;> simp [pyLenOpt, isOkB]
        | none => simp [truthyO, truthy] at hd
        | str s => simp [ContentFilter.init, hv, hd, pyLenOpt, isOkB]
        | int n => simp [ContentFilter.init, hv, hd, pyLenOpt, isOkB]
        | float lit => simp [ContentFilter.init, hv, hd, pyLenOpt, isOkB]
        | bool b => simp [ContentFilter.init, hv, hd, pyLenOpt, isOkB]
        | enum tok => simp [ContentFilter.init, hv, hd, pyLenOpt, isOkB]
        | dict kvs => simp [ContentFilter.init, hv, hd, pyLenOpt, isOkB]
        | obj fields => simp [ContentFilter.init, hv, hd, pyLenOpt, isOkB]

/-- Claim C10: for `DateFilter` the declared-optional list fields `dates`
and `ranges`, and for `ContentFilter` the `includedContentCategories` and
`excludedContentCategories` fields, an absent or empty (falsy) value makes
construction raise — the attribute is first set to `None` and the
maximum-length check is then applied unconditionally, computing `len(None)`
— so construction can succeed only when every such optional list is present
and non-empty. -/
theorem claim_C10_optional_list_check (d : Fields) :
    ((truthyO (dictGet d "dates") = false ∨ truthyO (dictGet d "ranges") = false) →
      isOkB (DateFilter.init d) = false) ∧
    ((truthyO (dictGet d "includedContentCategories") = false ∨
        truthyO (dictGet d "excludedContentCategories") = false) →
      isOkB (ContentFilter.init d) = false) ∧
    (∀ o, DateFilter.init d = .ok o →
      truthyO (dictGet d "dates") = true ∧ truthyO (dictGet d "ranges") = true) ∧
    (∀ o, ContentFilter.init d = .ok o →
      truthyO (dictGet d "includedContentCategories") = true ∧
        truthyO (dictGet d "excludedContentCategories") = true) := by
  refine ⟨dateFilter_falsy d, contentFilter_falsy d, ?_, ?_⟩
  · intro o ho
    constructor
    · cases hd : truthyO (dictGet d "dates") with
      | true => rfl
      | false =>
        have := dateFilter_falsy d (Or.inl hd)
        rw [ho] at this
        simp [isOkB] at this
    · cases hr : truthyO (dictGet d "ranges") with
      | true => rfl
      | false =>
        have := dateFilter_falsy d (Or.inr hr)
        rw [ho] at this
        simp [isOkB] at this
  · intro o ho
    constructor
    · cases hd : truthyO (dictGet d "includedContentCategories") with
      | true => rfl
      | false =>
        have := contentFilter_falsy d (Or.inl hd)
        rw [ho] at this
        simp [isOkB] at this
    · cases hr : truthyO (dictGet d "excludedContentCategories") with
      | true => rfl
      | false =>
        have := contentFilter_falsy d (Or.inr hr)
        rw [ho] at this
        simp [isOkB] at this

theorem claim_C10_optional_list_check_witness :
    isOkB (DateFilter.init Fields.nil) = false ∧
      isOkB (ContentFilter.init Fields.nil) = false :=
  ⟨(claim_C10_optional_list_check Fields.nil).1 (Or.inl (by rfl)),
   (claim_C10_optional_list_check Fields.nil).2.1 (Or.inl (by rfl))⟩
